import Mathlib

/-!
Verification development for the RGPD_Sentinel detection and scoring core.

The Python sources (analyzer/validators.py, analyzer/core.py,
config/exclusion_lists.py) are shallowly embedded below.  Python strings are
modelled as `List Char`; Python floats used for confidence arithmetic are
modelled as `ℚ` (all the constants involved are small decimal literals);
Python ints are `ℕ`/`ℤ`.  `str.lower`/`isupper`-style case operations are
modelled with Lean's ASCII `Char.toLower`/`Char.isUpper`; every concrete
string evaluated in a theorem below is ASCII, so this agrees with Python's
Unicode case mapping on all inputs that matter here.  Python's `$` anchor
also matches just before one trailing newline; the anchored patterns below
are only ever applied to strings that cannot end in a newline (regex
candidates made of digits, or strings already stripped of whitespace), so
`$` is modelled as exact end of string.
-/

namespace RGPD

/-- Digit value of an ASCII digit character (models `int` on one digit). -/
def charVal (c : Char) : ℕ := c.toNat - 48

/-- Models Python `int(s)` on a string of ASCII digits (the only call sites
embedded below guarantee the argument is a nonempty digit string). -/
def digitsToNat (l : List Char) : ℕ :=
  l.foldl (fun a c => 10 * a + charVal c) 0

/-- Character class `[1-9]` . -/
def isNonZeroDigit (c : Char) : Bool := '1' ≤ c && c ≤ '9'

/-- Python `\s` on ASCII: space, tab, newline, carriage return, form feed,
vertical tab. -/
def isPySpace (c : Char) : Bool :=
  c = ' ' || c = '\t' || c = '\n' || c = '\r' ||
  c = Char.ofNat 12 || c = Char.ofNat 11

/-- Lower-case a string character-wise (models `str.lower` on ASCII). -/
def lowerStr (l : List Char) : List Char := l.map Char.toLower

/-- True when `needle` occurs as a contiguous substring of `hay`
(models Python `needle in hay`). -/
def containsSub (needle hay : List Char) : Bool :=
  hay.tails.any (fun t => needle.isPrefixOf t)

/-- First index at which `needle` occurs in `hay`, if any
(models Python `hay.find(needle)`, with `none` for -1). -/
def findSub (needle : List Char) : List Char → Option ℕ
  | [] => if needle = [] then some 0 else none
  | c :: r =>
    if needle.isPrefixOf (c :: r) then some 0
    else (findSub needle r).map (· + 1)

/-- Fuelled helper for `countSub`. -/
def countSubFuel : ℕ → List Char → List Char → ℕ
  | 0, _, _ => 0
  | fuel + 1, needle, hay =>
    if needle.isPrefixOf hay then
      1 + countSubFuel fuel needle (hay.drop (max 1 needle.length))
    else
      match hay with
      | [] => 0
      | _ :: t => countSubFuel fuel needle t

/-- Number of non-overlapping occurrences of `needle` in `hay`, scanning
left to right (models Python `hay.count(needle)` for nonempty `needle`;
all embedded call sites pass needles of length ≥ 3). -/
def countSub (needle hay : List Char) : ℕ :=
  countSubFuel (hay.length + 1) needle hay

/-- All indices (possibly overlapping) at which `needle` occurs in `hay`,
in ascending order.  Models the `while True: idx = text.find(entity, start);
start = idx + 1` collection loop of `is_likely_organizational_name`
(analyzer/core.py:135-145) for nonempty `needle`. -/
def findAllIdx (needle hay : List Char) : List ℕ :=
  (List.range hay.length).filter (fun i => needle.isPrefixOf (hay.drop i))

/-- Split on every character satisfying `p`, keeping empty pieces
(models `re.split` with a single-character class as pattern). -/
def splitOnPred (p : Char → Bool) : List Char → List (List Char)
  | [] => [[]]
  | c :: r =>
    let rest := splitOnPred p r
    if p c then [] :: rest
    else
      match rest with
      | h :: t => (c :: h) :: t
      | [] => [[c]]

/-- Split on runs of whitespace, dropping empty pieces
(models Python `str.split()` with no argument, ASCII whitespace). -/
def splitWs (l : List Char) : List (List Char) :=
  (splitOnPred isPySpace l).filter (fun w => w ≠ [])

/-- Remove leading and trailing whitespace (models Python `str.strip()`). -/
def stripWs (l : List Char) : List Char :=
  ((l.dropWhile isPySpace).reverse.dropWhile isPySpace).reverse

/-!  ## validate_date (analyzer/validators.py:47-65)  -/

/-- Models `re.split(r'[FWD-DASH-DOT]', date_str)`.  In a Python character class the
`-` in `[FWD-DASH-DOT]` denotes a range from `/` (0x2F) down to `.` (0x2E); since the
range is reversed, `re` raises `re.error` (bad character range) while
compiling the pattern, before looking at the input.  The call therefore
never produces a split result for any input. -/
def re_split_date_seps (_s : List Char) : Option (List (List Char)) := none

/-- Shallow embedding of `validate_date`.  The first statement of the `try`
block is the `re.split` call above, which raises for every input; the bare
`except` turns that into `False`.  The month/year/leap-year logic in lines
54-63 of validators.py is unreachable; it is embedded separately as
`validate_date_spec` below. -/
def validate_date (s : List Char) : Bool :=
  match re_split_date_seps s with
  | none => false
  | some _ => false

/-- Models Python `int(s)` as used on a split date component: succeeds on
nonempty all-digit strings (sign/whitespace forms never occur in the date
candidates, which come from a digits-and-separators regex). -/
def parseNat (l : List Char) : Option ℕ :=
  if l ≠ [] && l.all Char.isDigit then some (digitsToNat l) else none

/-- Day count for a month, from the `days_in_month` table of
validators.py:59-62 (Gregorian leap rule for February). -/
def days_in_month (month year : ℕ) : ℕ :=
  if month = 1 then 31
  else if month = 2 then
    (if year % 4 = 0 ∧ (year % 100 ≠ 0 ∨ year % 400 = 0) then 29 else 28)
  else if month = 3 then 31
  else if month = 4 then 30
  else if month = 5 then 31
  else if month = 6 then 30
  else if month = 7 then 31
  else if month = 8 then 31
  else if month = 9 then 30
  else if month = 10 then 31
  else if month = 11 then 30
  else 31

/-- Modelled from the spec: the date validator as §4.2 of spec.md describes
it (and as the dead lines 50-63 of validators.py intend): split on `/`, `-`
or `.`, parse day/month/year, require month 1-12, year 1900-2025, and day at
most the month's day count under the Gregorian leap rule.  This is the
intended behaviour that the broken `[FWD-DASH-DOT]` pattern prevents. -/
def validate_date_spec (s : List Char) : Bool :=
  if s = [] then false
  else
    match splitOnPred (fun c => c = '/' || c = '-' || c = '.') s with
    | [d, m, y] =>
      match parseNat d, parseNat m, parseNat y with
      | some day, some month, some year =>
        decide (1 ≤ month ∧ month ≤ 12 ∧ 1900 ≤ year ∧ year ≤ 2025) &&
        decide (1 ≤ day ∧ day ≤ days_in_month month year)
      | _, _, _ => false
    | _ => false

/-!  ## validate_secu (analyzer/validators.py:67-90)  -/

/-- Models `re.match(r'^[123]\d{13}$', secu)`: first character in `[123]`,
then exactly 13 digits (14 characters in all). -/
def matches_secu_base : List Char → Bool
  | c :: rest =>
    (c = '1' || c = '2' || c = '3') && rest.length = 13 && rest.all Char.isDigit
  | [] => false

/-- Models `re.match(r'^[123]\d{12}$', secu)`: 13 characters in all. -/
def matches_secu_short : List Char → Bool
  | c :: rest =>
    (c = '1' || c = '2' || c = '3') && rest.length = 12 && rest.all Char.isDigit
  | [] => false

/-- Shallow embedding of `validate_secu`.  Note that the base pattern
`^[123]\d{13}$` matches strings of 14 characters, so `secu[:13]` is the
first 13 digits and `secu[13:]` is the single last digit. -/
def validate_secu (secu : List Char) : Bool :=
  if secu = [] then false
  else if matches_secu_base secu then
    let numero := digitsToNat (secu.take 13)
    let cle := digitsToNat (secu.drop 13)
    decide (cle = 97 - numero % 97)
  else if matches_secu_short secu then true
  else false

/-- Modelled from the spec (§4.2 NationalId, which is also what the
docstring and the `la clé (2 derniers)` comment of validate_secu intend):
a 15-digit string starting with 1, 2 or 3 splits into a 13-digit body and a
2-digit checksum which must equal `97 - (body mod 97)`; a 13-digit string
starting with 1, 2 or 3 is accepted unconditionally. -/
def validate_secu_spec (secu : List Char) : Bool :=
  match secu with
  | c :: rest =>
    if (c = '1' || c = '2' || c = '3') && rest.all Char.isDigit then
      if rest.length = 14 then
        decide (digitsToNat (secu.drop 13) =
          97 - digitsToNat (secu.take 13) % 97)
      else if rest.length = 12 then true
      else false
    else false
  | [] => false

/-!  ## validate_siret (analyzer/validators.py:92-109)  -/

/-- One digit's contribution to the Luhn total: position `i` counted from
the rightmost digit; every second digit (odd `i`) is doubled, and 9 is
subtracted when the doubled value exceeds 9. -/
def luhnDigit (i n : ℕ) : ℕ :=
  if i % 2 = 1 then (if 2 * n > 9 then 2 * n - 9 else 2 * n) else n

/-- Shallow embedding of `validate_siret`: exactly 14 characters, all
digits (a non-digit raises ValueError inside the `try`, giving False), and
the Luhn total of the reversed digits is divisible by 10. -/
def validate_siret (siret : List Char) : Bool :=
  if siret.length ≠ 14 then false
  else if ¬ siret.all Char.isDigit then false
  else
    (siret.reverse.enum.map (fun p => luhnDigit p.1 (charVal p.2))).sum % 10 = 0

/-!  ## validate_phone (analyzer/validators.py:22-45)  -/

/-- Character class `[\s.\-_()]` stripped from phone candidates. -/
def isPhoneStrip (c : Char) : Bool :=
  isPySpace c || c = '.' || c = '-' || c = '_' || c = '(' || c = ')'

/-- Models `re.match(r'^0[1-9]\d{8}$', s)` (10 characters). -/
def match_nat10 : List Char → Bool
  | '0' :: c :: rest =>
    isNonZeroDigit c && rest.length = 8 && rest.all Char.isDigit
  | _ => false

/-- Models `re.match(r'^\+33[1-9]\d{8}$', s)`: `+33`, a digit 1-9, then 8
digits — 12 characters in all. -/
def match_plus33_full : List Char → Bool
  | '+' :: '3' :: '3' :: c :: rest =>
    isNonZeroDigit c && rest.length = 8 && rest.all Char.isDigit
  | _ => false

/-- Models `re.match(r'^\+330[1-9]\d{7}$', s)` (12 characters). -/
def match_plus330 : List Char → Bool
  | '+' :: '3' :: '3' :: '0' :: c :: rest =>
    isNonZeroDigit c && rest.length = 7 && rest.all Char.isDigit
  | _ => false

/-- Models `re.match(r'^0033[1-9]\d{8}$', s)` (13 characters). -/
def match_0033_full : List Char → Bool
  | '0' :: '0' :: '3' :: '3' :: c :: rest =>
    isNonZeroDigit c && rest.length = 8 && rest.all Char.isDigit
  | _ => false

/-- Models `re.match(r'^00330[1-9]\d{7}$', s)` (13 characters). -/
def match_00330 : List Char → Bool
  | '0' :: '0' :: '3' :: '3' :: '0' :: c :: rest =>
    isNonZeroDigit c && rest.length = 7 && rest.all Char.isDigit
  | _ => false

/-- Shallow embedding of `validate_phone`: strip `[\s.\-_()]`, then the
branch structure of validators.py:28-45.  Note the length guards taken
verbatim from the source: the `+33` branch tests its 12-character pattern
only when the cleaned string has 11 characters, and the `0033` branch tests
its 13-character pattern only at 12 characters, so those two regex calls can
never succeed. -/
def validate_phone (phone : List Char) : Bool :=
  let cleaned := phone.filter (fun c => ¬ isPhoneStrip c)
  if cleaned.head? = some '0' && cleaned.length = 10 then
    match_nat10 cleaned
  else if ("+33".data).isPrefixOf cleaned then
    if cleaned.length = 11 then match_plus33_full cleaned
    else if cleaned.length = 12 && cleaned[3]? = some '0' then
      match_plus330 cleaned
    else false
  else if ("0033".data).isPrefixOf cleaned then
    if cleaned.length = 12 then match_0033_full cleaned
    else if cleaned.length = 13 && cleaned[4]? = some '0' then
      match_00330 cleaned
    else false
  else false

/-!  ## Exclusion configuration (config/exclusion_lists.py)  -/

/-- EXCLUDED_PERSONS from config/exclusion_lists.py. -/
def EXCLUDED_PERSONS : List (List Char) :=
  ["John Doe", "Doe", "John", "Jane Smith", "Smith", "Jane",
   "Robert Johnson", "Johnson", "Robert", "Emily Davis", "Davis", "Emily",
   "Michael Wilson", "Wilson", "Michael", "Sarah Brown", "Brown", "Sarah",
   "David Miller", "Miller", "David"].map String.data

/-- PROFESSIONAL_CONTEXT from config/exclusion_lists.py. -/
def PROFESSIONAL_CONTEXT : List (List Char) :=
  ["directeur", "dg", "responsable", "chef", "manager",
   "signé", "signature", "contact", "coordonnées",
   "référent", "chargé de", "administrateur", "employé",
   "service", "département", "collègue", "équipe",
   "salarié", "poste", "fonction", "technicien", "informatique"].map String.data

/-- TEMPLATE_INDICATORS from config/exclusion_lists.py. -/
def TEMPLATE_INDICATORS : List (List Char) :=
  ["exemple", "modèle", "template", "libellé", "démonstration",
   "test", "formation", "documentation", "manuel",
   "placeholder", "sample", "guide", "instruction"].map String.data

/-- ORGANIZATION_UNITS from config/exclusion_lists.py. -/
def ORGANIZATION_UNITS : List (List Char) :=
  ["ACME", "Service Clients", "Service Technique", "Ressources Humaines",
   "Service Juridique", "Service Informatique", "Service Comptabilité",
   "Direction Générale"].map String.data

/-!  ## analyze_name_context (analyzer/validators.py:185-224)  -/

/-- Honorific titles list of analyze_name_context (validators.py:211). -/
def CONTEXT_TITLES : List (List Char) :=
  ["m.", "mme.", "mr.", "dr.", "monsieur", "madame", "docteur",
   "prof.", "professeur"].map String.data

/-- Count of list entries occurring as substrings of `context` (one loop of
`for term in L: if term in context: score += w` contributes this count times
`w` to the context score). -/
def countPresent (terms : List (List Char)) (context : List Char) : ℕ :=
  (terms.filter (fun t => containsSub t context)).length

/-- Context score as a function of the three membership counts: +0.15 per
professional term, +0.10 per title, +0.20 per template indicator, capped at
1.0 (validators.py:205-224). -/
def context_score_of_counts (p t k : ℕ) : ℚ :=
  min 1 ((p : ℚ) * (3/20) + (t : ℚ) * (1/10) + (k : ℚ) * (1/5))

/-- Shallow embedding of `analyze_name_context`: locate the name's first
occurrence in the lowered text, take a ±100-character window, and score the
professional/title/template vocabulary found in it.  The `try` around the
body is dead (no embedded operation raises).  Slicing the original text and
then lowering equals slicing the lowered text, since lowering is
character-wise. -/
def analyze_name_context (name text : List Char) : ℚ :=
  match findSub (lowerStr name) (lowerStr text) with
  | none => 0
  | some name_pos =>
    let s := name_pos - 100
    let e := min text.length (name_pos + name.length + 100)
    let context := ((lowerStr text).drop s).take (e - s)
    context_score_of_counts
      (countPresent PROFESSIONAL_CONTEXT context)
      (countPresent CONTEXT_TITLES context)
      (countPresent TEMPLATE_INDICATORS context)

/-!  ## validate_person_name (analyzer/validators.py:111-183)  -/

/-- Python `str.isupper` on ASCII: at least one letter, and every letter is
upper case (non-cased characters are ignored). -/
def pyIsUpper (l : List Char) : Bool :=
  (l.filter Char.isAlpha) ≠ [] && (l.filter Char.isAlpha).all Char.isUpper

/-- Character class of symbols disallowed inside person names
(validators.py:135). -/
def isNameSpecialChar (c : Char) : Bool :=
  ("@#$%*+=_|<>\x7b\x7d[]^/\\".data).contains c

/-- One word of the capitalization loop (validators.py:150): first character
upper case and no digit anywhere in the word. -/
def isCapitalWord : List Char → Bool
  | [] => false
  | c :: rest => c.isUpper && ¬ (c :: rest).any Char.isDigit

/-- Honorific name openings (validators.py:167). -/
def NAME_HONORIFICS : List (List Char) :=
  ["m.", "mme", "dr", "prof", "monsieur", "madame", "docteur",
   "professeur"].map String.data

/-- Organisation vocabulary searched inside the name itself
(validators.py:176). -/
def ORG_WORDS_IN_NAME : List (List Char) :=
  ["service", "équipe", "groupe", "département", "direction",
   "pôle"].map String.data

/-- Repetition adjustment, verbatim from validators.py:160-163: when the
name occurs more than 3 times in the document, subtract
`min(0.5, occurrences * 0.05)` from the confidence; otherwise leave it. -/
def repetition_adjust (conf : ℚ) (occurrences : ℕ) : ℚ :=
  if occurrences > 3 then conf - min (1/2) ((occurrences : ℚ) * (1/20))
  else conf

/-- Clamp to [0,1] (the final `min(1.0, max(0.0, confidence))`). -/
def clamp01 (x : ℚ) : ℚ := min 1 (max 0 x)

/-- Shallow embedding of `validate_person_name`, returning
(is_valid, confidence).  The rejection guards, the word-capitalization
loop, the repetition adjustment, the honorific bonus, the context-score
subtraction and the organisation-vocabulary penalty follow
validators.py:119-183 step by step; the `if not word: continue` branch of
the loop is dead because `str.split()` never yields empty words. -/
def validate_person_name (name text : List Char) : Bool × ℚ :=
  if name = [] || name.length < 3 then (false, 0)
  else if EXCLUDED_PERSONS.any
      (fun e => containsSub (lowerStr e) (lowerStr name)) then (false, 0)
  else if pyIsUpper name && (splitWs name).length = 1 && name.length ≤ 5 then
    (false, 0)
  else if name.any isNameSpecialChar then (false, 0)
  else
    let words := splitWs name
    let c1 : ℚ := if words.length < 2 then 1/2 - 1/5 else 1/2 + 1/10
    let capitals := (words.filter isCapitalWord).length
    let c2 : ℚ := c1 + (capitals : ℚ) * (1/20)
      - ((words.length - capitals : ℕ) : ℚ) * (1/10)
    let c3 : ℚ := if capitals < 2 ∧ 2 ≤ words.length then c2 - 1/5 else c2
    let occurrences := countSub (lowerStr name) (lowerStr text)
    let c4 := repetition_adjust c3 occurrences
    let c5 : ℚ := if NAME_HONORIFICS.any
        (fun p => p.isPrefixOf (lowerStr name)) then c4 + 3/20 else c4
    let c6 := c5 - analyze_name_context name text
    let c7 : ℚ := if ORG_WORDS_IN_NAME.any
        (fun w => containsSub w (lowerStr name)) then c6 - 3/10 else c6
    (decide ((3:ℚ)/10 ≤ c7), clamp01 c7)

/-- Modelled from the spec: the repetition penalty as §4.4 of spec.md states
it — 0.05 per occurrence over the cap of 3, at most 0.5, nothing at 3 or
fewer occurrences. -/
def repetition_penalty_spec (occurrences : ℕ) : ℚ :=
  if occurrences > 3 then min (1/2) (((occurrences : ℚ) - 3) * (1/20))
  else 0

/-!  ## A bounded backtracking regex engine

All regular expressions in the source use bounded repetition except for a
few `*`/`+` over single-character classes, which consume at least one
character per step and are therefore given the input length as fuel.  A
pattern element maps an input suffix to the list of possible remaining
suffixes, in Python `re`'s preference order: alternatives left to right,
quantifiers greedy.  Python's backtracking engine returns the first
alternative in this order that lets the whole pattern succeed, which is
what taking the head of the final candidate list models.  -/

/-- Regex element: input suffix to candidate remaining suffixes, in the
engine's preference order. -/
def RElem : Type := List Char → List (List Char)

/-- Match a single literal character. -/
def rchar (c : Char) : RElem := fun l =>
  match l with
  | x :: r => if x = c then [r] else []
  | [] => []

/-- Match a single character satisfying `p` (a character class). -/
def rpred (p : Char → Bool) : RElem := fun l =>
  match l with
  | x :: r => if p x then [r] else []
  | [] => []

/-- Match the empty string. -/
def rempty : RElem := fun l => [l]

/-- Sequence two elements. -/
def rseq (p q : RElem) : RElem := fun l => (p l).flatMap q

/-- Ordered alternation (left alternative preferred). -/
def ralt (p q : RElem) : RElem := fun l => p l ++ q l

/-- Exactly `n` repetitions. -/
def rrep (p : RElem) : ℕ → RElem
  | 0 => rempty
  | n + 1 => rseq p (rrep p n)

/-- Greedy `{0,n}` repetition: more repetitions preferred. -/
def rupto (p : RElem) : ℕ → RElem
  | 0 => rempty
  | n + 1 => ralt (rseq p (rupto p n)) rempty

/-- Greedy `{lo,hi}` repetition. -/
def rrange (p : RElem) (lo hi : ℕ) : RElem :=
  rseq (rrep p lo) (rupto p (hi - lo))

/-- Greedy `?`. -/
def ropt (p : RElem) : RElem := ralt p rempty

/-- Fuelled greedy `*`. -/
def rstarFuel (p : RElem) : ℕ → RElem
  | 0 => rempty
  | n + 1 => ralt (rseq p (rstarFuel p n)) rempty

/-- Greedy `*` for elements consuming at least one character per step
(every starred element in the source is a single-character class, so the
suffix length bounds the number of repetitions). -/
def rstar (p : RElem) : RElem := fun l => rstarFuel p l.length l

/-- Greedy `+` for elements consuming at least one character per step. -/
def rplus (p : RElem) : RElem := rseq p (rstar p)

/-- Python `\w` as it applies to the texts embedded here: ASCII
alphanumerics, underscore, and the Latin-1 letters `À`-`ÿ` (Python's `\w`
is full Unicode; the sources only ever meet ASCII/Latin-1 text). -/
def isWordChar (c : Char) : Bool :=
  c.isAlphanum || c = '_' ||
  (0xC0 ≤ c.toNat && c.toNat ≤ 0xFF && c.toNat ≠ 0xD7 && c.toNat ≠ 0xF7)

/-- `\b` at a point known to come directly after a word character (every
use below follows a digit or letter): succeeds without consuming exactly
when the next character is absent or not a word character. -/
def rboundaryAfterWord : RElem := fun l =>
  match l with
  | [] => [[]]
  | c :: r => if isWordChar c then [] else [c :: r]

/-- Anchored `^pattern$` match: some candidate consumes the whole input. -/
def rFullMatch (p : RElem) (l : List Char) : Bool :=
  (p l).any List.isEmpty

/-- Leftmost search for a pattern that begins with `\b` followed by a word
character: scan positions left to right, keeping the previous character to
decide the boundary; at the first position with any candidate, return the
matched segment and the remaining suffix (the head candidate is the match
Python's engine reports).  Models `re.search` / one step of `findall` for
the patterns below. -/
def searchWS (p : RElem) : Option Char → List Char → Option (List Char × List Char)
  | _, [] => none
  | prev, c :: r =>
    let boundary := match prev with
      | none => true
      | some pc => ¬ isWordChar pc
    if boundary then
      match (p (c :: r)).head? with
      | some rest =>
        some ((c :: r).take ((c :: r).length - rest.length), rest)
      | none => searchWS p (some c) r
    else searchWS p (some c) r

/-- Fuelled helper for `findallWS`. -/
def findallWSFuel (p : RElem) : ℕ → Option Char → List Char → List (List Char)
  | 0, _, _ => []
  | fuel + 1, prev, l =>
    match searchWS p prev l with
    | none => []
    | some (matched, rest) =>
      if matched = [] then []
      else matched :: findallWSFuel p fuel matched.getLast? rest

/-- Models `pattern.findall(text)` for a pattern starting with `\b` and a
word character: repeatedly take the leftmost match and continue scanning
after its end. -/
def findallWS (p : RElem) (l : List Char) : List (List Char) :=
  findallWSFuel p (l.length + 1) none l

/-!  ## IP_ADDRESS_REGEX and its findall (analyzer/core.py:47-49)  -/

/-- The IPv4 octet alternation `25[0-5]|2[0-4]\d|[01]?\d\d?`, alternatives
in source order, quantifiers greedy. -/
def octetRe : RElem :=
  ralt (rseq (rchar '2') (rseq (rchar '5') (rpred (fun c => '0' ≤ c && c ≤ '5'))))
    (ralt (rseq (rchar '2') (rseq (rpred (fun c => '0' ≤ c && c ≤ '4')) (rpred Char.isDigit)))
      (rseq (ropt (rpred (fun c => c = '0' || c = '1')))
        (rseq (rpred Char.isDigit) (ropt (rpred Char.isDigit)))))

/-- IP_ADDRESS_REGEX body after its leading `\b`:
`(?:octet\.){3}octet\b` — an IPv4 dotted quad only; no IPv6 alternative
is present in the extractor pattern. -/
def ipAddressRe : RElem :=
  rseq (rrep (rseq octetRe (rchar '.')) 3) (rseq octetRe rboundaryAfterWord)

/-- Models `IP_ADDRESS_REGEX.findall(text)` (the extractor step of the
ip_addresses section of detect_personal_data, core.py:681). -/
def ipv4_findall (text : List Char) : List (List Char) :=
  findallWS ipAddressRe text

/-!  ## validate_ip_address (analyzer/validators.py:260-286)  -/

/-- Hexadecimal digit class `[0-9a-fA-F]`. -/
def isHexDigit (c : Char) : Bool :=
  c.isDigit || ('a' ≤ c && c ≤ 'f') || ('A' ≤ c && c ≤ 'F')

/-- One IPv6 group `[0-9a-fA-F]{1,4}`, greedy. -/
def hGroup : RElem := rrange (rpred isHexDigit) 1 4

/-- `group:` — one IPv6 group followed by a colon. -/
def hColon : RElem := rseq hGroup (rchar ':')

/-- The literal `::`. -/
def dColon : RElem := rseq (rchar ':') (rchar ':')

/-- The validator's IPv6 pattern: the nine anchored alternatives of
validators.py:277-285, in source order (full eight-group form, then the
compressed `::` forms). -/
def ipv6Re : RElem :=
  ralt (rseq (rrep hColon 7) hGroup)
    (ralt (rseq dColon (rseq (rupto hColon 6) hGroup))
      (ralt (rseq hGroup (rseq dColon (rseq (rupto hColon 5) hGroup)))
        (ralt (rseq hColon (rseq hGroup (rseq dColon (rseq (rupto hColon 4) hGroup))))
          (ralt (rseq (rupto hColon 2) (rseq hGroup (rseq dColon (rseq (rupto hColon 3) hGroup))))
            (ralt (rseq (rupto hColon 3) (rseq hGroup (rseq dColon (rseq (rupto hColon 2) hGroup))))
              (ralt (rseq (rupto hColon 4) (rseq hGroup (rseq dColon (rseq (ropt hColon) hGroup))))
                (ralt (rseq (rupto hColon 5) (rseq hGroup (rseq dColon hGroup)))
                  (rseq (rupto hColon 6) (rseq hGroup dColon)))))))))

/-- The validator's anchored IPv4 pattern
`^(?:(?:25[0-5]|2[0-4][0-9]|[01]?[0-9][0-9]?)\.){3}(...)$`
(validators.py:272). -/
def ipv4AnchoredRe : RElem :=
  rseq (rrep (rseq octetRe (rchar '.')) 3) octetRe

/-- Shallow embedding of `validate_ip_address`: strip, try the anchored
IPv4 pattern, then the nine-alternative IPv6 pattern. -/
def validate_ip_address (ip : List Char) : Bool :=
  if ip = [] then false
  else if rFullMatch ipv4AnchoredRe (stripWs ip) then true
  else rFullMatch ipv6Re (stripWs ip)

/-!  ## validate_email (analyzer/validators.py:9-20)  -/

/-- The validator's email pattern `^[a-zA-Z0-9][^@]*@[^@]+\.[^@]+$`. -/
def emailShapeRe : RElem :=
  rseq (rpred Char.isAlphanum)
    (rseq (rstar (rpred (fun c => c != '@')))
      (rseq (rchar '@')
        (rseq (rplus (rpred (fun c => c != '@')))
          (rseq (rchar '.') (rplus (rpred (fun c => c != '@')))))))

/-- Internal-organisation fragments rejected by validate_email
(validators.py:17). -/
def OGFA_FRAGMENTS : List (List Char) := ["@ogfa.", "ogfa@"].map String.data

/-- Shallow embedding of `validate_email`: nonempty, at most 254
characters, the shape regex, and no internal-organisation fragment in the
lowered address. -/
def validate_email (email : List Char) : Bool :=
  if email = [] || 254 < email.length then false
  else if ¬ rFullMatch emailShapeRe email then false
  else if OGFA_FRAGMENTS.any (fun o => containsSub o (lowerStr email)) then false
  else true

/-!  ## validate_postal_address (analyzer/validators.py:230-258)  -/

/-- `\b\d{5}\b` — a five-digit token (used with `re.search`). -/
def postal5Re : RElem :=
  rseq (rrep (rpred Char.isDigit) 5) rboundaryAfterWord

/-- Character class of the street-name part:
`[\w\s\-\'\À-ÿ]` — word characters, whitespace, hyphen, apostrophe and the
Latin-1 range (the backslash before `À` makes it a literal that then forms
a range with `ÿ`). -/
def isStreetChar (c : Char) : Bool :=
  isWordChar c || isPySpace c || c = '-' || c = Char.ofNat 39 ||
  (0xC0 ≤ c.toNat && c.toNat ≤ 0xFF)

/-- The street pattern body after its leading `\b`:
`\d{1,4}\s*[,]?\s+[\w\s\-\'\À-ÿ]+` (validators.py:249). -/
def streetRe : RElem :=
  rseq (rrange (rpred Char.isDigit) 1 4)
    (rseq (rstar (rpred isPySpace))
      (rseq (ropt (rchar ','))
        (rseq (rplus (rpred isPySpace)) (rplus (rpred isStreetChar)))))

/-- Shallow embedding of `validate_postal_address`: the stripped address
must contain a five-digit token, a street match, and the part of the street
match before the first comma must strip to at least two words. -/
def validate_postal_address (address : List Char) : Bool :=
  if address = [] then false
  else
    let stripped := stripWs address
    if (searchWS postal5Re none stripped).isNone then false
    else
      match searchWS streetRe none stripped with
      | none => false
      | some (matched, _) =>
        let street_name := stripWs (matched.takeWhile (fun c => c != ','))
        decide (2 ≤ (splitWs street_name).length)

/-!  ## is_likely_organizational_name (analyzer/core.py:105-178)  -/

/-- Organisation indicators searched inside the entity text itself
(core.py:122). -/
def ORG_NAME_INDICATORS : List (List Char) :=
  ["service", "département", "direction", "pôle", "équipe", "groupe",
   "unité"].map String.data

/-- Role vocabulary searched in the ±50-character windows around each
occurrence (core.py:127-132). -/
def ORG_CONTEXT_INDICATORS : List (List Char) :=
  ["directeur", "directrice", "responsable", "chef", "technicien",
   "informatique", "référent", "chargé de", "service", "département",
   "pôle", "l\x27équipe", "signature", "contact", "coordonnées", "adjoint",
   "administratif", "conseiller", "manager", "gestion", "gestionnaire",
   "assistant"].map String.data

/-- The formal-address patterns of core.py:159-165, built around the
lowered entity. -/
def officialPatterns (e : List Char) : List (List Char) :=
  ["m. ".data ++ e, "mr ".data ++ e, "mme ".data ++ e,
   "monsieur ".data ++ e, "madame ".data ++ e,
   e ++ ", directeur".data, e ++ ", responsable".data,
   e ++ " (directeur".data, e ++ " (responsable".data,
   e ++ " - directeur".data, e ++ " - responsable".data]

/-- Role-assignment openings tested right after the entity
(core.py:175). -/
def AFTER_ROLE_STARTS : List (List Char) :=
  ["est", "a été nommé", "occupe", "en charge", ":"].map String.data

/-- Shallow embedding of `is_likely_organizational_name`: the cascade of
organisational tests of core.py:105-178, with every occurrence of the
entity examined in a ±50-character window (overlapping occurrences are all
collected, as the `start_idx = idx + 1` loop does), and with Python's
float comparison `org_contexts >= len(occurrences) / 2` rendered as
`2 * org_contexts ≥ windows.length`. -/
def is_likely_organizational_name (text entity : List Char) : Bool :=
  let text_lower := lowerStr text
  let entity_lower := lowerStr entity
  if ORGANIZATION_UNITS.any (fun u => containsSub (lowerStr u) entity_lower) then
    true
  else if pyIsUpper entity && (splitWs entity).length ≤ 2 then true
  else if ORG_NAME_INDICATORS.any (fun i => containsSub i entity_lower) then
    true
  else
    let idxs := findAllIdx entity_lower text_lower
    let windows := idxs.map (fun i =>
      let ws := i - 50
      let we := min text.length (i + entity.length + 50)
      (text_lower.drop ws).take (we - ws))
    if windows = [] then false
    else
      let orgContexts := (windows.filter (fun w =>
        ORG_CONTEXT_INDICATORS.any (fun ind => containsSub ind w))).length
      if windows.length ≤ 2 * orgContexts then true
      else if (officialPatterns entity_lower).any
          (fun p => containsSub p text_lower) then true
      else windows.any (fun w =>
        match findSub entity_lower w with
        | none => false
        | some pos =>
          let after := stripWs (w.drop (pos + entity_lower.length))
          AFTER_ROLE_STARTS.any (fun s => s.isPrefixOf after))

/-!  ## detect_personal_data (analyzer/core.py:557-716)

The regex `findall` calls of lines 589, 601, 617, 631, 641, 670, 681 and
the spaCy named-entity spans of lines 650-665 feed candidate strings into
the per-type validation/scoring sections.  The candidate lists are modelled
as explicit inputs (`Candidates`), ranging over every list the extractors
and the external recognizer could produce; the ip_addresses extractor is
additionally instantiated with its faithful embedding `ipv4_findall` in
`detect_ip_addresses` below.  `initialize_nlp` only loads the external
model and is modelled as succeeding.  -/

/-- The eight bucket keys of the results dictionary
(core.py:568-577). -/
inductive DType
  | emails
  | phones
  | dates
  | names
  | secu
  | siret
  | postal_addresses
  | ip_addresses
deriving DecidableEq

/-- One emitted detection: `{"value": ..., "confidence": ...}`. -/
structure Detection where
  value : List Char
  confidence : ℚ
deriving DecidableEq

/-- Candidate strings entering each section: the regex findall outputs
(for dates, after the `"/".join` over the capture-group tuples of line
619), and for names the stripped text of the spaCy entities labelled
`PER`. -/
structure Candidates where
  emails : List (List Char)
  phones : List (List Char)
  dates : List (List Char)
  secu : List (List Char)
  siret : List (List Char)
  postal : List (List Char)
  ips : List (List Char)
  names : List (List Char)

/-- Template-document flag (core.py:583): some template indicator occurs
in the lowered text. -/
def is_template (text : List Char) : Bool :=
  TEMPLATE_INDICATORS.any (fun i => containsSub i (lowerStr text))

/-- Email confidence (core.py:593): 0.7 in a template, else 0.9. -/
def email_confidence (tmpl : Bool) : ℚ := if tmpl then 7/10 else 9/10

/-- Phone confidence (core.py:604-610): 0.7 in a template, else 0.75 for
the very common `0X XX XX XX XX` format, else 0.85. -/
def phone_confidence (tmpl common : Bool) : ℚ :=
  if tmpl then 7/10 else if common then 3/4 else 17/20

/-- Date confidence (core.py:627). -/
def date_confidence : ℚ := 1/2

/-- National-id confidence (core.py:637). -/
def secu_confidence : ℚ := 49/50

/-- SIRET confidence (core.py:647). -/
def siret_confidence : ℚ := 23/25

/-- Postal-address confidence (core.py:674): 0.65 in a template, else
0.75. -/
def postal_confidence (tmpl : Bool) : ℚ := if tmpl then 13/20 else 3/4

/-- IP confidence (core.py:684-688): 0.75 for reserved/private-looking
addresses, else 0.85. -/
def ip_confidence (priv : Bool) : ℚ := if priv then 3/4 else 17/20

/-- Models `re.match(r'^0[1-9](?: \d{2}){4}$', phone)` (core.py:607). -/
def match_common_phone (phone : List Char) : Bool :=
  rFullMatch
    (rseq (rchar '0')
      (rseq (rpred isNonZeroDigit)
        (rrep (rseq (rchar ' ') (rrep (rpred Char.isDigit) 2)) 4)))
    phone

/-- Organisation domains suppressed from the emails bucket
(core.py:594). -/
def ACME_DOMAINS : List (List Char) :=
  ["acme.com", "acme.net", "acme.org", "acme.fr"].map String.data

/-- Reserved/private IP openings (core.py:687). -/
def PRIVATE_IP_STARTS : List (List Char) :=
  ["127.", "192.168.", "10.", "172."].map String.data

/-- Emails section (core.py:589-598): validate, assign confidence, and
append only when no organisation domain occurs in the lowered address. -/
def emails_section (tmpl : Bool) (cands : List (List Char)) : List Detection :=
  cands.filterMap (fun email =>
    if validate_email email then
      if ¬ ACME_DOMAINS.any (fun d => containsSub d (lowerStr email)) then
        some ⟨email, email_confidence tmpl⟩
      else none
    else none)

/-- Phones section (core.py:600-614). -/
def phones_section (tmpl : Bool) (cands : List (List Char)) : List Detection :=
  cands.filterMap (fun phone =>
    if validate_phone phone then
      some ⟨phone, phone_confidence tmpl (match_common_phone phone)⟩
    else none)

/-- Dates section (core.py:617-628), over the joined candidate strings. -/
def dates_section (cands : List (List Char)) : List Detection :=
  cands.filterMap (fun d =>
    if validate_date d then some ⟨d, date_confidence⟩ else none)

/-- National-id section (core.py:630-638). -/
def secu_section (cands : List (List Char)) : List Detection :=
  cands.filterMap (fun s =>
    if validate_secu s then some ⟨s, secu_confidence⟩ else none)

/-- SIRET section (core.py:640-648). -/
def siret_section (cands : List (List Char)) : List Detection :=
  cands.filterMap (fun s =>
    if validate_siret s then some ⟨s, siret_confidence⟩ else none)

/-- Names section (core.py:650-665): strip the entity text, validate it
against the whole document, and drop likely organisational names. -/
def names_section (text : List Char) (cands : List (List Char)) : List Detection :=
  cands.filterMap (fun ent =>
    let name := stripWs ent
    let vc := validate_person_name name text
    if vc.1 && ¬ is_likely_organizational_name text name then
      some ⟨name, vc.2⟩
    else none)

/-- Postal-address section (core.py:669-678). -/
def postal_section (tmpl : Bool) (cands : List (List Char)) : List Detection :=
  cands.filterMap (fun a =>
    if validate_postal_address a then some ⟨a, postal_confidence tmpl⟩
    else none)

/-- IP section (core.py:680-692). -/
def ip_section (cands : List (List Char)) : List Detection :=
  cands.filterMap (fun ip =>
    if validate_ip_address ip then
      some ⟨ip, ip_confidence
        (PRIVATE_IP_STARTS.any (fun s => s.isPrefixOf ip))⟩
    else none)

/-- The unfiltered results dictionary, with the template flag passed
explicitly (it is computed once from the text at core.py:583 and only the
emails, phones and postal sections read it). -/
def raw_results (tmpl : Bool) (text : List Char) (c : Candidates) :
    DType → List Detection
  | .emails => emails_section tmpl c.emails
  | .phones => phones_section tmpl c.phones
  | .dates => dates_section c.dates
  | .names => names_section text c.names
  | .secu => secu_section c.secu
  | .siret => siret_section c.siret
  | .postal_addresses => postal_section tmpl c.postal
  | .ip_addresses => ip_section c.ips

/-- Per-type acceptance thresholds (core.py:699-708). -/
def confidence_threshold : DType → ℚ
  | .emails => 7/10
  | .phones => 7/10
  | .dates => 1/2
  | .names => 2/5
  | .secu => 4/5
  | .siret => 4/5
  | .postal_addresses => 7/10
  | .ip_addresses => 7/10

/-- The final filtering step of core.py:696-714: keep an item when its
confidence is at least the type's threshold. -/
def filtered_results (tmpl : Bool) (text : List Char) (c : Candidates)
    (ty : DType) : List Detection :=
  (raw_results tmpl text c ty).filter
    (fun item => confidence_threshold ty ≤ item.confidence)

/-- Shallow embedding of `detect_personal_data` over given candidate
lists: empty or shorter-than-3 text returns the empty results immediately
(core.py:579-580); otherwise every section runs and the threshold filter
produces the returned dictionary. -/
def detect_from_candidates (text : List Char) (c : Candidates)
    (ty : DType) : List Detection :=
  if text.length < 3 then []
  else filtered_results (is_template text) text c ty

/-- The empty candidate record. -/
def noCandidates : Candidates := ⟨[], [], [], [], [], [], [], []⟩

/-- The ip_addresses bucket of `detect_personal_data text`, with the
extractor instantiated by its embedding: candidates are exactly
`IP_ADDRESS_REGEX.findall(text)` (core.py:681). -/
def detect_ip_addresses (text : List Char) : List Detection :=
  detect_from_candidates text { noCandidates with ips := ipv4_findall text }
    DType.ip_addresses

/-!  ## Risk scoring (analyzer/core.py:404-522)  -/

/-- The per-file risk factor of analyze_file (core.py:442-444): 3 for
secu/emails/phones, 2 for postal and ip addresses, 1 otherwise. -/
def risk_factor (ty : DType) : ℚ :=
  if ty = .secu ∨ ty = .emails ∨ ty = .phones then 3
  else if ty = .postal_addresses ∨ ty = .ip_addresses then 2
  else 1

/-- The `{type}_risk` field computed by analyze_file (core.py:445-446):
the mean of `confidence * risk_factor` over the type's detections, and 0
when there are none. -/
def type_risk (ty : DType) (confs : List ℚ) : ℚ :=
  if confs = [] then 0
  else (confs.map (fun cf => cf * risk_factor ty)).sum / confs.length

/-- The weight table of calculate_risk_scores (core.py:473-481).  The
dates bucket has no entry and never enters the aggregation loop; its
weight is written 0 here and is never read by `file_risk`. -/
def risk_weight : DType → ℚ
  | .secu => 10
  | .emails => 5
  | .phones => 5
  | .names => 3
  | .siret => 2
  | .postal_addresses => 2
  | .ip_addresses => 2
  | .dates => 0

/-- The aggregation loop's type list (core.py:485), in source order. -/
def AGGREGATED_TYPES : List DType :=
  [.emails, .phones, .names, .secu, .siret, .postal_addresses,
   .ip_addresses]

/-- One type's contribution inside the loop (core.py:487-490): the stored
risk value times the weight, skipped (0) when the value is missing or
falsy — a missing key and a stored 0.0 contribute alike. -/
def risk_contrib (v : ℚ) (ty : DType) : ℚ :=
  if v ≠ 0 then v * risk_weight ty else 0

/-- One analyze_file result row: path, file type, and the per-type
`{type}_risk` values (0 for a type with no detections). -/
structure FileRecord where
  path : List Char
  ftype : List Char
  risk : DType → ℚ

/-- Total file risk of the calculate_risk_scores loop (core.py:483-490). -/
def file_risk (r : FileRecord) : ℚ :=
  (AGGREGATED_TYPES.map (fun ty => risk_contrib (r.risk ty) ty)).sum

/-- The analyze_file record for one file, given the per-type confidence
lists of its detections (core.py:435-446). -/
def file_record_of (path ftype : List Char) (confs : DType → List ℚ) :
    FileRecord :=
  ⟨path, ftype, fun ty => type_risk ty (confs ty)⟩

/-- One type's subscore within a file: its analyze_file mean risk fed
through the calculate_risk_scores contribution. -/
def subscore (ty : DType) (confs : List ℚ) : ℚ :=
  risk_contrib (type_risk ty confs) ty

/-- Modelled from the spec (§4.5): subscore per type = mean confidence of
that type's detections × type weight, 0 if no detections. -/
def subscore_spec (ty : DType) (confs : List ℚ) : ℚ :=
  if confs = [] then 0 else (confs.sum / confs.length) * risk_weight ty

/-- One tier-list entry: `{"path": ..., "score": ..., "type": ...}`
(core.py:493-509). -/
structure RiskEntry where
  path : List Char
  score : ℚ
  ftype : List Char

/-- The entry built for a file record. -/
def mkEntry (r : FileRecord) : RiskEntry :=
  ⟨r.path, file_risk r, r.ftype⟩

/-- Descending order on scores, the order of
`sorted(key=lambda x: x["score"], reverse=True)`. -/
def scoreDesc (a b : RiskEntry) : Prop := b.score ≤ a.score

instance : DecidableRel scoreDesc :=
  fun a b => inferInstanceAs (Decidable (b.score ≤ a.score))

instance : IsTotal RiskEntry scoreDesc :=
  ⟨fun a b => le_total b.score a.score⟩

instance : IsTrans RiskEntry scoreDesc :=
  ⟨fun _ _ _ hab hbc => le_trans hbc hab⟩

/-- High tier (core.py:492-497, sorted at line 515): files with risk
strictly above 20, sorted by descending score. -/
def high_risk_files (results : List FileRecord) : List RiskEntry :=
  List.insertionSort scoreDesc
    (results.filterMap (fun r =>
      if 20 < file_risk r then some (mkEntry r) else none))

/-- Medium tier (core.py:498-503, sorted at line 516): the `elif` keeps
files with risk at most 20 and above 10. -/
def medium_risk_files (results : List FileRecord) : List RiskEntry :=
  List.insertionSort scoreDesc
    (results.filterMap (fun r =>
      if ¬ 20 < file_risk r ∧ 10 < file_risk r then some (mkEntry r)
      else none))

/-- Low tier (core.py:504-509, unsorted): the second `elif` keeps files
with risk at most 10 and above 0. -/
def low_risk_files (results : List FileRecord) : List RiskEntry :=
  results.filterMap (fun r =>
    if ¬ 20 < file_risk r ∧ ¬ 10 < file_risk r ∧ 0 < file_risk r then
      some (mkEntry r)
    else none)

/-- Membership in a score-threshold filterMap is equivalent to the record's
own score satisfying the predicate (entries carry the score, so an entry
equal to `mkEntry r` can only come from a record with the same score). -/
theorem mem_score_filterMap (P : ℚ → Prop) [DecidablePred P]
    {results : List FileRecord} {r : FileRecord} (hr : r ∈ results) :
    (mkEntry r ∈ results.filterMap (fun x =>
      if P (file_risk x) then some (mkEntry x) else none)) ↔
    P (file_risk r) := by
  constructor
  · intro h
    obtain ⟨x, _hx, hf⟩ := List.mem_filterMap.mp h
    split_ifs at hf with hP
    have hsc : file_risk x = file_risk r := by
      simpa [mkEntry] using congrArg RiskEntry.score (Option.some.inj hf)
    rwa [hsc] at hP
  · intro hP
    exact List.mem_filterMap.mpr ⟨r, hr, if_pos hP⟩

/-- Helper: the sum of a pointwise right-multiplied list. -/
theorem sum_map_mul (l : List ℚ) (b : ℚ) :
    (l.map (fun x => x * b)).sum = l.sum * b := by
  induction l with
  | nil => simp
  | cons a t ih => simp [ih]; ring

/-!  ## Claims C1, C2, C4  -/

/-- Claim C1 (status: code_bug).  The claim says `validate_date` accepts
every real Gregorian date in 1900-2025, with `29/02/2020` true.  In the
code, the `re.split` pattern `[FWD-DASH-DOT]` is an invalid (reversed) character
range, `re` raises while compiling it, and the bare `except` returns False:
`validate_date` is False on every input, in particular on `29/02/2020`.
The date logic the function carries (embedded as `validate_date_spec`)
would accept `29/02/2020` and reject `29/02/2021` exactly as claimed. -/
theorem claim_C1 :
    validate_date "29/02/2020".data = false ∧
    validate_date_spec "29/02/2020".data = true ∧
    validate_date_spec "29/02/2021".data = false := by
  refine ⟨rfl, by decide, by decide⟩

/-- Claim C2 (status: code_bug).  The claim says a 15-digit candidate whose
last two digits equal `97 - (first-13-digits mod 97)` is accepted.  The
code's base pattern `^[123]\d{13}$` matches 14-character strings, so every
15-digit string falls through both pattern checks and is rejected:
`123456789012311` has checksum 11 = 97 - (1234567890123 mod 97), yet
`validate_secu` returns False on it (while the intended behaviour,
`validate_secu_spec`, accepts it).  The 13-digit unconditional acceptance
half of the claim does hold. -/
theorem claim_C2 :
    validate_secu "123456789012311".data = false ∧
    digitsToNat "11".data = 97 - digitsToNat "1234567890123".data % 97 ∧
    validate_secu_spec "123456789012311".data = true ∧
    validate_secu "1234567890123".data = true := by
  refine ⟨by decide, by decide, by decide, by decide⟩

/-- Claim C4 (status: code_bug).  The claim says `+33` followed by 9 digits
starting 1-9 is accepted after cleaning.  In the code the `+33` branch only
ever runs its 12-character regex `^\+33[1-9]\d{8}$` when the cleaned string
has 11 characters, so the canonical international form `+33612345678` is
rejected; similarly `0033612345678` is rejected.  What the `+33` branch does
accept is the 12-character string `+33061234567` (`+330` plus only 8 more
digits).  The 10-digit national form is accepted as claimed. -/
theorem claim_C4 :
    validate_phone "+33612345678".data = false ∧
    validate_phone "0033612345678".data = false ∧
    validate_phone "+33061234567".data = true ∧
    validate_phone "06 12 34 56 78".data = true := by
  refine ⟨by decide, by decide, by decide, by decide⟩

/-- Claim C5, counterexample.  The claim says the repetition reduction is
0.05 per occurrence over the cap of 3 (`repetition_penalty_spec`); at 4
occurrences the code subtracts `min(0.5, 4 * 0.05) = 0.2`, not
`min(0.5, (4-3) * 0.05) = 0.05`. -/
theorem claim_C5_cex :
    (1:ℚ)/2 - repetition_adjust (1/2) 4 ≠ repetition_penalty_spec 4 := by
  norm_num [repetition_adjust, repetition_penalty_spec, min_def]

/-- Claim C5 as amended: for a name occurring more than 3 times, the
repetition reduction is 0.05 per occurrence counting every occurrence (not
only those beyond the cap), bounded by 0.5; at 3 or fewer occurrences the
confidence is unchanged. -/
theorem claim_C5 (conf : ℚ) (occ : ℕ) :
    (3 < occ → conf - repetition_adjust conf occ =
      min (1/2) ((occ : ℚ) * (1/20))) ∧
    (occ ≤ 3 → repetition_adjust conf occ = conf) := by
  constructor
  · intro h
    simp only [repetition_adjust, if_pos h]
    ring
  · intro h
    simp only [repetition_adjust, if_neg (by omega : ¬ 3 < occ)]

/-- Witness for claim C5 at occurrence counts 4 and 3. -/
theorem claim_C5_witness :
    ((1:ℚ)/2 - repetition_adjust (1/2) 4 = min (1/2) ((4 : ℚ) * (1/20))) ∧
    repetition_adjust (1/2) 3 = 1/2 :=
  ⟨(claim_C5 (1/2) 4).1 (by decide), (claim_C5 (1/2) 3).2 (by decide)⟩

/-- Claim C6, counterexample.  The claim says the IpAddress extractor also
matches IPv6 and that `detect` emits one IpAddress detection for a text
consisting of a full-form IPv6 address.  The extractor pattern
IP_ADDRESS_REGEX is a dotted-quad IPv4 pattern only: its findall on that
text is empty and the emitted ip_addresses bucket is empty. -/
theorem claim_C6_cex :
    ipv4_findall "2001:0db8:85a3:0000:0000:8a2e:0370:7334".data = [] ∧
    detect_ip_addresses "2001:0db8:85a3:0000:0000:8a2e:0370:7334".data = [] := by
  refine ⟨by decide, by decide⟩

/-- Claim C6 as amended: the IpAddress pattern extractor matches only IPv4
dotted-quad substrings; `validate_ip_address` itself does accept full-form
IPv6, but no IpAddress detection is emitted for a text containing only an
IPv6 address, while a text containing an IPv4 address yields its
detection. -/
theorem claim_C6 :
    validate_ip_address "2001:0db8:85a3:0000:0000:8a2e:0370:7334".data = true ∧
    detect_ip_addresses "2001:0db8:85a3:0000:0000:8a2e:0370:7334".data = [] ∧
    detect_ip_addresses "Serveur: 8.8.8.8".data =
      [⟨"8.8.8.8".data, 17/20⟩] := by
  refine ⟨by decide, by decide, ?_⟩
  have h : ipv4_findall "Serveur: 8.8.8.8".data = ["8.8.8.8".data] := by decide
  have hv : validate_ip_address "8.8.8.8".data = true := by decide
  have hp : PRIVATE_IP_STARTS.any (fun s => s.isPrefixOf "8.8.8.8".data) = false := by
    decide
  have hsec : ip_section ["8.8.8.8".data] = [⟨"8.8.8.8".data, (17:ℚ)/20⟩] := by
    unfold ip_section
    rw [List.filterMap_cons, List.filterMap_nil, if_pos hv, hp]
    rfl
  unfold detect_ip_addresses detect_from_candidates
  rw [if_neg (by decide : ¬ ("Serveur: 8.8.8.8".data.length < 3))]
  unfold filtered_results raw_results
  show List.filter _ (ip_section (ipv4_findall "Serveur: 8.8.8.8".data)) = _
  rw [h, hsec, List.filter_cons,
    if_pos (decide_eq_true (by norm_num [confidence_threshold]) :
      decide (confidence_threshold DType.ip_addresses ≤
        ((⟨"8.8.8.8".data, (17:ℚ)/20⟩ : Detection)).confidence) = true),
    List.filter_nil]

/-- Claim C8 (status: confirmed).  Every detection present in the returned
results has confidence at least its type's acceptance threshold: the final
step of detect_personal_data rebuilds each bucket through the threshold
filter, and the short-text early return yields empty buckets. -/
theorem claim_C8 (text : List Char) (c : Candidates) (ty : DType)
    (d : Detection) (hd : d ∈ detect_from_candidates text c ty) :
    confidence_threshold ty ≤ d.confidence := by
  unfold detect_from_candidates at hd
  split at hd
  · simp at hd
  · unfold filtered_results at hd
    simpa using (List.mem_filter.mp hd).2

/-- A concrete run of the embedded pipeline producing one email
detection, shared by the witnesses below. -/
theorem email_example_mem :
    (⟨"jean@ex.fr".data, 9/10⟩ : Detection) ∈
      detect_from_candidates "jean@ex.fr ok".data
        { noCandidates with emails := ["jean@ex.fr".data] } DType.emails := by
  have hv : validate_email "jean@ex.fr".data = true := by decide
  have ha : ACME_DOMAINS.any
      (fun dm => containsSub dm (lowerStr "jean@ex.fr".data)) = false := by decide
  have ht : is_template "jean@ex.fr ok".data = false := by decide
  have hsec : emails_section false ["jean@ex.fr".data] =
      [⟨"jean@ex.fr".data, (9:ℚ)/10⟩] := by
    unfold emails_section
    rw [List.filterMap_cons, List.filterMap_nil, if_pos hv,
      if_pos (by simp [ha] :
        ¬ (ACME_DOMAINS.any
          (fun dm => containsSub dm (lowerStr "jean@ex.fr".data)) = true))]
    rfl
  unfold detect_from_candidates
  rw [if_neg (by decide : ¬ ("jean@ex.fr ok".data.length < 3))]
  unfold filtered_results raw_results
  show (⟨"jean@ex.fr".data, 9/10⟩ : Detection) ∈
    List.filter _ (emails_section (is_template "jean@ex.fr ok".data)
      ["jean@ex.fr".data])
  rw [ht, hsec]
  exact List.mem_filter.mpr ⟨List.mem_singleton.mpr rfl,
    decide_eq_true (by norm_num [confidence_threshold])⟩

theorem claim_C8_witness :
    confidence_threshold DType.emails ≤
      (⟨"jean@ex.fr".data, 9/10⟩ : Detection).confidence :=
  claim_C8 "jean@ex.fr ok".data
    { noCandidates with emails := ["jean@ex.fr".data] }
    DType.emails ⟨"jean@ex.fr".data, 9/10⟩ email_example_mem

/-- Claim C10 (status: confirmed).  The emails bucket never contains a
value with an `acme` organisation domain in it (the suppression happens
after validation, inside the emails section), and this is distinct from
the validator's own rejection of `ogfa` addresses: an acme address passes
`validate_email`. -/
theorem claim_C10 :
    (∀ (text : List Char) (c : Candidates) (d : Detection),
        d ∈ detect_from_candidates text c DType.emails →
        ∀ dom ∈ ACME_DOMAINS, containsSub dom (lowerStr d.value) = false) ∧
    validate_email "john@acme.com".data = true := by
  constructor
  · intro text c d hd dom hdom
    unfold detect_from_candidates at hd
    split at hd
    · simp at hd
    · unfold filtered_results at hd
      have hd1 := (List.mem_filter.mp hd).1
      simp only [raw_results] at hd1
      unfold emails_section at hd1
      obtain ⟨email, _hmem, hf⟩ := List.mem_filterMap.mp hd1
      split_ifs at hf with h1 h2
      · obtain rfl : (⟨email, email_confidence (is_template text)⟩ : Detection) = d :=
          Option.some.inj hf
        simp only [Bool.not_eq_true, List.any_eq_false] at h2
        exact h2 dom hdom
  · decide

/-- Witness for claim C10: the suppression conclusion at a concrete run
and domain. -/
theorem claim_C10_witness :
    containsSub "acme.com".data (lowerStr "jean@ex.fr".data) = false :=
  claim_C10.1 "jean@ex.fr ok".data
    { noCandidates with emails := ["jean@ex.fr".data] }
    ⟨"jean@ex.fr".data, 9/10⟩ email_example_mem "acme.com".data (by decide)

/-- Claim C7 (status: confirmed).  Template penalty monotonicity, "all else
equal".  First half: for the seven regex-driven types, every detection
emitted when the template flag is set has a counterpart with the same value
and at least its confidence when the flag is clear (candidates, validators
and thresholds are flag-independent; only the assigned confidence changes:
0.7 vs 0.9 for emails, 0.7 vs 0.75/0.85 for phones, 0.65 vs 0.75 for
postal addresses — the last in fact filtered out under the flag — and
unchanged for dates, national ids, SIRET and IPs).  Second half: a person
name's final clamped confidence is antitone in the number of
template-indicator terms found in its context window, the channel through
which template vocabulary lowers name confidence. -/
theorem claim_C7 :
    (∀ (text : List Char) (c : Candidates) (ty : DType) (d : Detection),
        ty ≠ DType.names →
        d ∈ filtered_results true text c ty →
        ∃ d' ∈ filtered_results false text c ty,
          d'.value = d.value ∧ d.confidence ≤ d'.confidence) ∧
    (∀ (base : ℚ) (p t k k' : ℕ), k ≤ k' →
        clamp01 (base - context_score_of_counts p t k') ≤
        clamp01 (base - context_score_of_counts p t k)) := by
  constructor
  · intro text c ty d hne hd
    have h1 := List.mem_filter.mp hd
    cases ty with
    | names => exact absurd rfl hne
    | emails =>
      have h2 := h1.1
      simp only [raw_results, emails_section] at h2
      obtain ⟨email, hmem, hf⟩ := List.mem_filterMap.mp h2
      split_ifs at hf with hv hacme
      obtain rfl : (⟨email, email_confidence true⟩ : Detection) = d :=
        Option.some.inj hf
      refine ⟨⟨email, email_confidence false⟩, List.mem_filter.mpr
        ⟨List.mem_filterMap.mpr ⟨email, hmem, by rw [if_pos hv, if_pos hacme]⟩,
         decide_eq_true (by norm_num [confidence_threshold, email_confidence])⟩,
        rfl, by norm_num [email_confidence]⟩
    | phones =>
      have h2 := h1.1
      simp only [raw_results, phones_section] at h2
      obtain ⟨phone, hmem, hf⟩ := List.mem_filterMap.mp h2
      split_ifs at hf with hv
      obtain rfl :
          (⟨phone, phone_confidence true (match_common_phone phone)⟩ :
            Detection) = d := Option.some.inj hf
      refine ⟨⟨phone, phone_confidence false (match_common_phone phone)⟩,
        List.mem_filter.mpr
          ⟨List.mem_filterMap.mpr ⟨phone, hmem, by rw [if_pos hv]⟩,
           decide_eq_true ?_⟩, rfl, ?_⟩
      · cases hcm : match_common_phone phone <;>
          norm_num [confidence_threshold, phone_confidence, hcm]
      · cases hcm : match_common_phone phone <;>
          norm_num [phone_confidence, hcm]
    | dates => exact ⟨d, hd, rfl, le_rfl⟩
    | secu => exact ⟨d, hd, rfl, le_rfl⟩
    | siret => exact ⟨d, hd, rfl, le_rfl⟩
    | ip_addresses => exact ⟨d, hd, rfl, le_rfl⟩
    | postal_addresses =>
      have h2 := h1.1
      simp only [raw_results, postal_section] at h2
      obtain ⟨a, hmem, hf⟩ := List.mem_filterMap.mp h2
      split_ifs at hf with hv
      obtain rfl : (⟨a, postal_confidence true⟩ : Detection) = d :=
        Option.some.inj hf
      exact absurd (of_decide_eq_true h1.2)
        (by norm_num [confidence_threshold, postal_confidence])
  · intro base p t k k' hk
    have hs : context_score_of_counts p t k ≤ context_score_of_counts p t k' := by
      unfold context_score_of_counts
      refine min_le_min le_rfl ?_
      have hkq : (k : ℚ) ≤ (k' : ℚ) := Nat.cast_le.mpr hk
      nlinarith
    unfold clamp01
    exact min_le_min le_rfl (max_le_max le_rfl (by linarith))

/-- Witness for claim C7: a concrete template-flagged email detection has
its flag-clear counterpart, and the name-confidence antitonicity applied at
concrete counts. -/
theorem claim_C7_witness :
    (∃ d' ∈ filtered_results false "abc".data
        { noCandidates with emails := ["jean@ex.fr".data] } DType.emails,
      d'.value = (⟨"jean@ex.fr".data, email_confidence true⟩ : Detection).value ∧
      (⟨"jean@ex.fr".data, email_confidence true⟩ : Detection).confidence ≤
        d'.confidence) ∧
    clamp01 ((1:ℚ)/2 - context_score_of_counts 0 0 1) ≤
      clamp01 ((1:ℚ)/2 - context_score_of_counts 0 0 0) := by
  constructor
  · refine claim_C7.1 "abc".data
      { noCandidates with emails := ["jean@ex.fr".data] } DType.emails
      ⟨"jean@ex.fr".data, email_confidence true⟩ (by simp) ?_
    have hv : validate_email "jean@ex.fr".data = true := by decide
    have ha : ACME_DOMAINS.any
        (fun dm => containsSub dm (lowerStr "jean@ex.fr".data)) = false := by
      decide
    unfold filtered_results raw_results
    show (⟨"jean@ex.fr".data, email_confidence true⟩ : Detection) ∈
      List.filter _ (emails_section true ["jean@ex.fr".data])
    have hsec : emails_section true ["jean@ex.fr".data] =
        [⟨"jean@ex.fr".data, email_confidence true⟩] := by
      unfold emails_section
      rw [List.filterMap_cons, List.filterMap_nil, if_pos hv,
        if_pos (by simp [ha] :
          ¬ (ACME_DOMAINS.any
            (fun dm => containsSub dm (lowerStr "jean@ex.fr".data)) = true))]
    rw [hsec]
    exact List.mem_filter.mpr ⟨List.mem_singleton.mpr rfl,
      decide_eq_true (by norm_num [confidence_threshold, email_confidence])⟩
  · exact claim_C7.2 (1/2) 0 0 0 1 (by omega)

/-- Claim C3, counterexample.  The claim says a type's subscore is its
mean confidence times the weight table value.  For one email detection
with confidence 1 the code stores `mean(1 * 3) = 3` in analyze_file and
multiplies by weight 5 in calculate_risk_scores, yielding 15, while the
claimed formula yields 5. -/
theorem claim_C3_cex :
    subscore DType.emails [1] ≠ subscore_spec DType.emails [1] := by
  norm_num [subscore, subscore_spec, risk_contrib, type_risk, risk_factor,
    risk_weight]

/-- Claim C3 as amended: the per-type subscore equals mean confidence ×
the analyze_file risk factor (3 for NationalId/Email/Phone, 2 for
PostalAddress/IpAddress, 1 otherwise) × the weight table value (0 with no
detections), and the total file risk is the sum of these subscores over
the seven aggregated types (Date is not aggregated). -/
theorem claim_C3 (ty : DType) (confs : List ℚ) (path ftype : List Char)
    (confsF : DType → List ℚ) :
    (confs ≠ [] →
      subscore ty confs =
        (confs.sum / confs.length) * risk_factor ty * risk_weight ty) ∧
    subscore ty [] = 0 ∧
    file_risk (file_record_of path ftype confsF) =
      (AGGREGATED_TYPES.map (fun t => subscore t (confsF t))).sum := by
  refine ⟨?_, by simp [subscore, type_risk, risk_contrib], rfl⟩
  intro h
  have hv : type_risk ty confs =
      confs.sum / confs.length * risk_factor ty := by
    unfold type_risk
    rw [if_neg h, sum_map_mul]
    ring
  unfold subscore risk_contrib
  rw [hv]
  split_ifs with h0
  · ring
  · rw [not_not.mp h0]
    simp

/-- Witness for claim C3: one email detection of confidence 1. -/
theorem claim_C3_witness :
    subscore DType.emails [1] =
      (([1] : List ℚ).sum / ([1] : List ℚ).length) *
        risk_factor DType.emails * risk_weight DType.emails :=
  (claim_C3 DType.emails [1] [] [] (fun _ => [])).1 (by simp)

/-- Claim C9 (status: confirmed).  Tier placement: high iff risk > 20,
medium iff 10 < risk ≤ 20, low iff 0 < risk ≤ 10, no tier iff risk = 0
(under nonnegative risk), a file of risk exactly 20 is medium, and the
high and medium tiers are sorted by descending score. -/
theorem claim_C9 (results : List FileRecord) (r : FileRecord)
    (hr : r ∈ results) :
    (mkEntry r ∈ high_risk_files results ↔ 20 < file_risk r) ∧
    (mkEntry r ∈ medium_risk_files results ↔
      10 < file_risk r ∧ file_risk r ≤ 20) ∧
    (mkEntry r ∈ low_risk_files results ↔
      0 < file_risk r ∧ file_risk r ≤ 10) ∧
    (0 ≤ file_risk r →
      ((mkEntry r ∉ high_risk_files results ∧
        mkEntry r ∉ medium_risk_files results ∧
        mkEntry r ∉ low_risk_files results) ↔ file_risk r = 0)) ∧
    (file_risk r = 20 → mkEntry r ∈ medium_risk_files results) ∧
    List.Sorted scoreDesc (high_risk_files results) ∧
    List.Sorted scoreDesc (medium_risk_files results) := by
  have hhigh : mkEntry r ∈ high_risk_files results ↔ 20 < file_risk r :=
    Iff.trans (List.perm_insertionSort scoreDesc _).mem_iff
      (mem_score_filterMap (fun v => 20 < v) hr)
  have hmed : mkEntry r ∈ medium_risk_files results ↔
      ¬ 20 < file_risk r ∧ 10 < file_risk r :=
    Iff.trans (List.perm_insertionSort scoreDesc _).mem_iff
      (mem_score_filterMap (fun v => ¬ 20 < v ∧ 10 < v) hr)
  have hlow : mkEntry r ∈ low_risk_files results ↔
      ¬ 20 < file_risk r ∧ ¬ 10 < file_risk r ∧ 0 < file_risk r :=
    mem_score_filterMap (fun v => ¬ 20 < v ∧ ¬ 10 < v ∧ 0 < v) hr
  refine ⟨hhigh, ?_, ?_, ?_, ?_, ?_, ?_⟩
  · rw [hmed]
    constructor
    · rintro ⟨h1, h2⟩
      exact ⟨h2, le_of_not_lt h1⟩
    · rintro ⟨h1, h2⟩
      exact ⟨not_lt.mpr h2, h1⟩
  · rw [hlow]
    constructor
    · rintro ⟨_h1, h2, h3⟩
      exact ⟨h3, le_of_not_lt h2⟩
    · rintro ⟨h1, h2⟩
      exact ⟨not_lt.mpr (le_trans h2 (by norm_num)), not_lt.mpr h2, h1⟩
  · intro hnn
    rw [hhigh, hmed, hlow]
    constructor
    · rintro ⟨h1, h2, h3⟩
      by_contra h0
      have hpos : 0 < file_risk r := lt_of_le_of_ne hnn (Ne.symm h0)
      rcases lt_or_le 20 (file_risk r) with h | h
      · exact h1 h
      · rcases lt_or_le 10 (file_risk r) with h' | h'
        · exact h2 ⟨not_lt.mpr h, h'⟩
        · exact h3 ⟨not_lt.mpr h, not_lt.mpr h', hpos⟩
    · intro h0
      rw [h0]
      norm_num
  · intro h20
    rw [hmed, h20]
    norm_num
  · exact List.sorted_insertionSort scoreDesc _
  · exact List.sorted_insertionSort scoreDesc _

/-- Witness for claim C9: a single file whose only aggregated risk is
4 on emails, total risk 4 × 5 = 20.0, landing in the medium tier, with
both sorted-tier facts at the same input. -/
theorem claim_C9_witness :
    (mkEntry ⟨"a".data, "text".data,
        fun ty => match ty with | DType.emails => 4 | _ => 0⟩ ∈
      medium_risk_files [⟨"a".data, "text".data,
        fun ty => match ty with | DType.emails => 4 | _ => 0⟩]) ∧
    List.Sorted scoreDesc (high_risk_files [⟨"a".data, "text".data,
        fun ty => match ty with | DType.emails => 4 | _ => 0⟩]) := by
  have h20 : file_risk ⟨"a".data, "text".data,
      fun ty => match ty with | DType.emails => 4 | _ => 0⟩ = 20 := by
    norm_num [file_risk, AGGREGATED_TYPES, risk_contrib, risk_weight,
      List.map_cons, List.map_nil, List.sum_cons, List.sum_nil]
  have h := claim_C9 [⟨"a".data, "text".data,
      fun ty => match ty with | DType.emails => 4 | _ => 0⟩]
    ⟨"a".data, "text".data,
      fun ty => match ty with | DType.emails => 4 | _ => 0⟩
    (List.mem_singleton.mpr rfl)
  exact ⟨h.2.2.2.2.1 h20, h.2.2.2.2.2.1⟩

end RGPD
